import Mathlib

/-!
Shallow embedding of the whisk channel library (src/lib.rs).

The crate implements a capacity-one rendezvous channel.  The shared state is a
record `Locked` guarded by a spinlock: an optional in-transit value `data`, a
send-side waker registry and a receive-side waker registry (`Wake`).  A waker
registry holds one optional fast-slot waker `wake` with its waiter identifier
`chan`, plus a spill list `list` of further (identifier, waker) pairs.

We embed the sequential behaviour of each critical section: every poll runs a
closure under the spinlock from start to finish, so its effect is a pure
function from the locked record to the new locked record, together with the
poll result and the list of wakers invoked inside the section (in invocation
order).  Wakers are drawn from an abstract type `W`; waiter identifiers are
naturals (in the code they are pointer addresses cast to `usize`).
-/

namespace Whisk

/-- Result of polling a future or notifier: completed with a value, or
suspended (the Rust `Poll` enum with variants `Ready` and `Pending`). -/
inductive Poll (α : Type) where
  | ready (value : α)
  | pending
deriving DecidableEq

/-- The waker registry `struct Wake` of src/lib.rs: `wake` is the fast-slot
waker, `chan` its waiter identifier (meaningful only while `wake` is `some`),
and `list` the spill list of further (identifier, waker) pairs. -/
structure Wake (W : Type) where
  wake : Option W
  chan : Nat
  list : List (Nat × W)
deriving DecidableEq

/-- `Wake::default()`: no fast-slot waker, identifier 0, empty spill list. -/
def Wake.empty {W : Type} : Wake W := ⟨none, 0, []⟩

/-- Helper embedding `self.list.iter_mut().find(|w| w.0 == chan)` followed by
`wake.1 = waker`: overwrite the waker of the first entry whose identifier is
`chan`, leaving every other entry in place. -/
def updateFirst {W : Type} (l : List (Nat × W)) (chan : Nat) (waker : W) :
    List (Nat × W) :=
  match l with
  | [] => []
  | e :: rest =>
      if e.1 = chan then (e.1, waker) :: rest
      else e :: updateFirst rest chan waker

/-- `Wake::register` of src/lib.rs, line for line: if the fast slot is
occupied, either replace it (same identifier) or spill both entries to the
list; otherwise store in the fast slot when the list is empty, overwrite the
first list entry with the same identifier, or append. -/
def Wake.register {W : Type} (s : Wake W) (chan : Nat) (waker : W) : Wake W :=
  match s.wake with
  | some wake =>
      if s.chan = chan then { s with chan := chan, wake := some waker }
      else { s with wake := none,
                    list := s.list ++ [(s.chan, wake), (chan, waker)] }
  | none =>
      match s.list with
      | [] => { s with chan := chan, wake := some waker }
      | _ :: _ =>
          if chan ∈ s.list.map Prod.fst then
            { s with list := updateFirst s.list chan waker }
          else { s with list := s.list ++ [(chan, waker)] }

/-- `Wake::wake` of src/lib.rs: if the fast slot is occupied, take it and
invoke only that waker, returning without touching the list; otherwise drain
the list in insertion order.  Returns the invoked wakers in order together
with the new registry state. -/
def Wake.wakeAll {W : Type} (s : Wake W) : List W × Wake W :=
  match s.wake with
  | some waker => ([waker], { s with wake := none })
  | none => (s.list.map Prod.snd, { s with list := [] })

/-- The registered entries of a registry: the fast-slot pair (when present)
followed by the spill list. -/
def Wake.entries {W : Type} (s : Wake W) : List (Nat × W) :=
  (match s.wake with
   | some k => [(s.chan, k)]
   | none => []) ++ s.list

/-- Shape well-formedness: whenever the fast slot is occupied the spill list
is empty.  (Established for all reachable registry states below.) -/
def Wake.WF {W : Type} (s : Wake W) : Prop :=
  s.wake.isSome = true → s.list = []

instance {W : Type} (s : Wake W) : Decidable s.WF :=
  decidable_of_iff (s.wake.isSome = true → s.list.isEmpty = true)
    (by simp [Wake.WF, List.isEmpty_iff])

/-- At most one entry per waiter identifier across fast slot and spill list. -/
def Wake.Dedup {W : Type} (s : Wake W) : Prop :=
  (s.entries.map Prod.fst).Nodup

instance {W : Type} (s : Wake W) : Decidable s.Dedup := by
  unfold Wake.Dedup; infer_instance

/-- Registry states reachable from the empty registry by any sequence of
register and wake operations. -/
inductive Wake.Reachable {W : Type} : Wake W → Prop where
  | empty : Wake.Reachable Wake.empty
  | register {s : Wake W} (chan : Nat) (waker : W) :
      Wake.Reachable s → Wake.Reachable (s.register chan waker)
  | wakeAll {s : Wake W} :
      Wake.Reachable s → Wake.Reachable s.wakeAll.2

/-- The record `struct Locked<T>` guarded by the spinlock: receive wakers,
send wakers, and the in-transit value. -/
structure Locked (T W : Type) where
  recv : Wake W
  send : Wake W
  data : Option T
deriving DecidableEq

/-- `Locked::default()`: empty registries, no value in transit. -/
def Locked.empty {T W : Type} : Locked T W := ⟨Wake.empty, Wake.empty, none⟩

/-- A channel: its locked shared state, plus the address of its allocation
(`Channel::uid` casts the channel pointer to `usize`), which is the waiter
identifier used by every poll targeting this channel. -/
structure Channel (T W : Type) where
  uid : Nat
  locked : Locked T W
deriving DecidableEq

/-- `Channel::poll_internal` of src/lib.rs (the body of the critical
section): if the slot holds a value, take it, wake the send registry and
complete with the value; otherwise register the current waker in the receive
registry under `self.uid()` and stay pending.  Returns the poll result, the
new locked state, and the wakers invoked. -/
def Channel.pollInternal {T W : Type} (c : Channel T W) (waker : W) :
    Poll T × Locked T W × List W :=
  match c.locked.data with
  | some output =>
      (Poll.ready output,
       { c.locked with data := none, send := c.locked.send.wakeAll.2 },
       c.locked.send.wakeAll.1)
  | none =>
      (Poll.pending,
       { c.locked with recv := c.locked.recv.register c.uid waker },
       [])

/-- `Channel::recv` polls `poll_internal` (via `core::future::poll_fn`), so
one poll of the recv future is exactly one call of `poll_internal`. -/
def Channel.recvPoll {T W : Type} (c : Channel T W) (waker : W) :
    Poll T × Locked T W × List W :=
  c.pollInternal waker

/-- The `pasts::Notifier` impl for `&Channel`: `poll_next` delegates to
`poll_internal`. -/
def Channel.pollNext {T W : Type} (c : Channel T W) (waker : W) :
    Poll T × Locked T W × List W :=
  c.pollInternal waker

/-- `struct Message`: an in-flight send; holds the target channel (modelled
by its uid) and the `Cell<Option<T>>` holder keeping the value until it is
admitted into the slot. -/
structure Message (T : Type) where
  chan : Nat
  holder : Option T
deriving DecidableEq

/-- `Channel::send`: build the `Message` future, value in its holder. -/
def Channel.send {T W : Type} (c : Channel T W) (message : T) : Message T :=
  ⟨c.uid, some message⟩

/-- The `Future` impl for `Message` (src/lib.rs): if the slot is empty, move
the holder contents into the slot, wake the receive registry, and complete;
otherwise register the current waker in the send registry under the target
channel uid and stay pending.  Returns the poll result, the updated message,
the new locked state, and the wakers invoked. -/
def Message.poll {T W : Type} (m : Message T) (waker : W) (s : Locked T W) :
    Poll Unit × Message T × Locked T W × List W :=
  match s.data with
  | none =>
      (Poll.ready (),
       { m with holder := none },
       { s with data := m.holder, recv := s.recv.wakeAll.2 },
       s.recv.wakeAll.1)
  | some _ =>
      (Poll.pending, m,
       { s with send := s.send.register m.chan waker },
       [])

/-- Dropping a `Message`: the type has no `Drop` implementation, so dropping
it only destroys its own fields (in particular the held value) and leaves the
channel's shared state untouched. -/
def Message.drop {T W : Type} (_m : Message T) (s : Locked T W) : Locked T W :=
  s

/-- Alternating matched send/recv admissions of the values `vs` on channel
`c`: each value is sent with one poll and received with one poll; `none` if
any poll fails to complete. -/
def sendRecvSeq {T W : Type} (waker : W) :
    Channel T W → List T → Option (List T × Channel T W)
  | c, [] => some ([], c)
  | c, v :: rest =>
      match (c.send v).poll waker c.locked with
      | (Poll.ready _, _, s1, _) =>
          match Channel.pollInternal ⟨c.uid, s1⟩ waker with
          | (Poll.ready x, s2, _) =>
              match sendRecvSeq waker ⟨c.uid, s2⟩ rest with
              | some (xs, cf) => some (x :: xs, cf)
              | none => none
          | (Poll.pending, _, _) => none
      | (Poll.pending, _, _, _) => none

/-! ## Registry lemmas -/

theorem updateFirst_map_fst {W : Type} (l : List (Nat × W)) (chan : Nat)
    (waker : W) : (updateFirst l chan waker).map Prod.fst = l.map Prod.fst := by
  induction l with
  | nil => rfl
  | cons e rest ih =>
      simp only [updateFirst]
      split <;> simp [ih]

theorem updateFirst_mem {W : Type} (l : List (Nat × W)) (chan : Nat) (waker : W)
    (h : chan ∈ l.map Prod.fst) : (chan, waker) ∈ updateFirst l chan waker := by
  induction l with
  | nil => simp at h
  | cons e rest ih =>
      simp only [updateFirst]
      by_cases he : e.1 = chan
      · rw [if_pos he, he]
        exact List.mem_cons_self _ _
      · rw [if_neg he]
        simp only [List.map_cons, List.mem_cons] at h
        rcases h with h | h
        · exact absurd h.symm he
        · exact List.mem_cons_of_mem _ (ih h)

/-- After registering `(chan, waker)`, that exact pair is among the registry's
entries. -/
theorem Wake.register_mem {W : Type} (s : Wake W) (chan : Nat) (waker : W) :
    (chan, waker) ∈ (s.register chan waker).entries := by
  obtain ⟨w, ch, l⟩ := s
  cases w with
  | some k =>
      by_cases h : ch = chan <;> simp [Wake.register, Wake.entries, h]
  | none =>
      cases l with
      | nil => simp [Wake.register, Wake.entries]
      | cons e rest =>
          simp only [Wake.register]
          by_cases h : chan ∈ ((e :: rest).map Prod.fst)
          · rw [if_pos h]
            simpa [Wake.entries] using updateFirst_mem (e :: rest) chan waker h
          · rw [if_neg h]
            simp [Wake.entries]

/-- Register preserves the shape invariant. -/
theorem Wake.register_WF {W : Type} (s : Wake W) (chan : Nat) (waker : W)
    (h : s.WF) : (s.register chan waker).WF := by
  obtain ⟨w, ch, l⟩ := s
  cases w with
  | some k =>
      have hl : l = [] := h rfl
      subst hl
      by_cases hc : ch = chan <;> simp [Wake.register, Wake.WF, hc]
  | none =>
      cases l with
      | nil => simp [Wake.register, Wake.WF]
      | cons e rest =>
          simp only [Wake.register]
          by_cases hc : chan ∈ ((e :: rest).map Prod.fst)
          · rw [if_pos hc]; simp [Wake.WF]
          · rw [if_neg hc]; simp [Wake.WF]

/-- The state left behind by a wake always satisfies the shape invariant. -/
theorem Wake.wakeAll_WF {W : Type} (s : Wake W) : s.wakeAll.2.WF := by
  obtain ⟨w, ch, l⟩ := s
  cases w <;> simp [Wake.wakeAll, Wake.WF]

/-- Under the shape invariant, a wake invokes exactly the registered wakers in
order and leaves the registry empty. -/
theorem Wake.wakeAll_spec {W : Type} (s : Wake W) (h : s.WF) :
    s.wakeAll = (s.entries.map Prod.snd, ⟨none, s.chan, []⟩) := by
  obtain ⟨w, ch, l⟩ := s
  cases w with
  | some k =>
      have hl : l = [] := h rfl
      subst hl
      simp [Wake.wakeAll, Wake.entries]
  | none => simp [Wake.wakeAll, Wake.entries]

/-- Every reachable registry state satisfies the shape invariant. -/
theorem Wake.reachable_WF {W : Type} {s : Wake W} (h : s.Reachable) : s.WF := by
  induction h with
  | empty => simp [Wake.WF, Wake.empty]
  | register chan waker _ ih => exact Wake.register_WF _ chan waker ih
  | wakeAll _ _ => exact Wake.wakeAll_WF _

/-! ## Claim theorems about the waker registry -/

/-- C3: for every registry state reachable from the empty registry by register
and wake operations, the wake operation invokes every registered waker (the
fast-slot entry and every spill-list entry, in order) and leaves the registry
completely empty. -/
theorem C3_wake_drains {W : Type} (s : Wake W) (h : s.Reachable) :
    s.wakeAll.1 = s.entries.map Prod.snd
    ∧ s.wakeAll.2.wake = none ∧ s.wakeAll.2.list = [] := by
  rw [Wake.wakeAll_spec s (Wake.reachable_WF h)]
  exact ⟨rfl, rfl, rfl⟩

/-- Witness for C3 at the reachable state obtained by registering waiter 1
with waker 10 in the empty registry. -/
theorem C3_wake_drains_witness :
    (Wake.empty.register 1 10 : Wake Nat).Reachable
    ∧ ((Wake.empty.register 1 10 : Wake Nat).wakeAll.1
        = (Wake.empty.register 1 10 : Wake Nat).entries.map Prod.snd
       ∧ (Wake.empty.register 1 10 : Wake Nat).wakeAll.2.wake = none
       ∧ (Wake.empty.register 1 10 : Wake Nat).wakeAll.2.list = []) :=
  ⟨Wake.Reachable.register 1 10 Wake.Reachable.empty,
   C3_wake_drains _ (Wake.Reachable.register 1 10 Wake.Reachable.empty)⟩

/-- C9: in every registry state reachable from the empty registry, an occupied
fast slot forces an empty spill list, so the wake fast path never skips a
registered waker: the invoked wakers are exactly the registered ones. -/
theorem C9_shape_invariant {W : Type} (s : Wake W) (h : s.Reachable) :
    (s.wake.isSome = true → s.list = [])
    ∧ s.wakeAll.1 = s.entries.map Prod.snd := by
  have hwf := Wake.reachable_WF h
  refine ⟨hwf, ?_⟩
  rw [Wake.wakeAll_spec s hwf]

/-- Witness for C9 at the reachable state with two distinct registered
waiters (fast slot spilled to the list). -/
theorem C9_shape_invariant_witness :
    ((Wake.empty.register 1 10).register 2 20 : Wake Nat).Reachable
    ∧ ((((Wake.empty.register 1 10).register 2 20 : Wake Nat).wake.isSome = true
          → ((Wake.empty.register 1 10).register 2 20 : Wake Nat).list = [])
       ∧ ((Wake.empty.register 1 10).register 2 20 : Wake Nat).wakeAll.1
          = ((Wake.empty.register 1 10).register 2 20 : Wake Nat).entries.map
              Prod.snd) :=
  ⟨Wake.Reachable.register 2 20 (Wake.Reachable.register 1 10
      Wake.Reachable.empty),
   C9_shape_invariant _ (Wake.Reachable.register 2 20 (Wake.Reachable.register
      1 10 Wake.Reachable.empty))⟩

/-- C5 counterexample: the registry state with fast slot (2, 10) and spill
list [(1, 20)] has at most one entry per identifier, yet registering (1, 30)
spills the fast slot and appends, leaving two entries for identifier 1:
register does not preserve the at-most-one property on such states, and it
adds a second entry instead of replacing. -/
theorem C5_counterexample :
    (⟨some 10, 2, [(1, 20)]⟩ : Wake Nat).Dedup
    ∧ ¬ ((⟨some 10, 2, [(1, 20)]⟩ : Wake Nat).register 1 30).Dedup
    ∧ ((⟨some 10, 2, [(1, 20)]⟩ : Wake Nat).register 1 30).entries.map Prod.fst
        = [1, 2, 1] := by
  refine ⟨by decide, by decide, by decide⟩

/-- C5 (amended): on every registry state that has at most one entry per
waiter identifier AND satisfies the shape invariant (occupied fast slot forces
an empty spill list — true of all reachable states), register preserves both
properties, and when the identifier is already present the registration keeps
the identifier sequence unchanged and installs the new waker for it, rather
than adding a second entry. -/
theorem C5_register_preserves_dedup {W : Type} (s : Wake W) (chan : Nat)
    (waker : W) (hwf : s.WF) (hd : s.Dedup) :
    (s.register chan waker).Dedup ∧ (s.register chan waker).WF
    ∧ (chan ∈ s.entries.map Prod.fst →
        (s.register chan waker).entries.map Prod.fst = s.entries.map Prod.fst
        ∧ (chan, waker) ∈ (s.register chan waker).entries) := by
  refine ⟨?_, Wake.register_WF s chan waker hwf, ?_⟩
  · obtain ⟨w, ch, l⟩ := s
    cases w with
    | some k =>
        have hl : l = [] := hwf rfl
        subst hl
        by_cases hc : ch = chan
        · simp [Wake.register, Wake.Dedup, Wake.entries, hc]
        · simp [Wake.register, Wake.Dedup, Wake.entries, hc]
    | none =>
        cases l with
        | nil => simp [Wake.register, Wake.Dedup, Wake.entries]
        | cons e rest =>
            simp only [Wake.register]
            by_cases hc : chan ∈ ((e :: rest).map Prod.fst)
            · rw [if_pos hc]
              simpa [Wake.Dedup, Wake.entries, updateFirst_map_fst] using hd
            · rw [if_neg hc]
              simp only [Wake.Dedup, Wake.entries] at hd ⊢
              simp only [List.nil_append, List.map_append, List.map_cons,
                List.map_nil] at hd ⊢
              simp only [List.map_cons, List.mem_cons, not_or] at hc
              rcases List.nodup_cons.mp hd with ⟨he, hr⟩
              simp [List.nodup_append]
              exact ⟨⟨fun x hx => he (List.mem_map.mpr ⟨(e.1, x), hx, rfl⟩),
                      fun h => hc.1 h.symm⟩, hr,
                     fun x hx => hc.2 (List.mem_map.mpr ⟨(chan, x), hx, rfl⟩)⟩
  · intro hmem
    obtain ⟨w, ch, l⟩ := s
    cases w with
    | some k =>
        have hl : l = [] := hwf rfl
        subst hl
        simp only [Wake.entries, List.append_nil, List.map_cons,
          List.map_nil, List.mem_cons, List.not_mem_nil, or_false] at hmem
        have hc : ch = chan := hmem.symm
        simp [Wake.register, Wake.entries, hc]
    | none =>
        cases l with
        | nil => simp [Wake.entries] at hmem
        | cons e rest =>
            simp only [Wake.entries, List.nil_append] at hmem
            simp only [Wake.register]
            rw [if_pos hmem]
            exact ⟨by simp [Wake.entries, updateFirst_map_fst],
              by simpa [Wake.entries] using
                updateFirst_mem (e :: rest) chan waker hmem⟩

/-- Witness for the amended C5: registering identifier 1 again in the
two-waiter list state replaces its waker in place. -/
theorem C5_register_preserves_dedup_witness :
    (⟨none, 0, [(1, 10), (2, 20)]⟩ : Wake Nat).WF
    ∧ (⟨none, 0, [(1, 10), (2, 20)]⟩ : Wake Nat).Dedup
    ∧ (((⟨none, 0, [(1, 10), (2, 20)]⟩ : Wake Nat).register 1 30).Dedup
       ∧ ((⟨none, 0, [(1, 10), (2, 20)]⟩ : Wake Nat).register 1 30).WF
       ∧ (1 ∈ (⟨none, 0, [(1, 10), (2, 20)]⟩ : Wake Nat).entries.map Prod.fst →
           ((⟨none, 0, [(1, 10), (2, 20)]⟩ : Wake Nat).register 1
               30).entries.map Prod.fst
             = (⟨none, 0, [(1, 10), (2, 20)]⟩ : Wake Nat).entries.map Prod.fst
           ∧ (1, 30) ∈ ((⟨none, 0, [(1, 10), (2, 20)]⟩ : Wake Nat).register 1
               30).entries)) :=
  ⟨by decide, by decide,
   C5_register_preserves_dedup _ 1 30 (by decide) (by decide)⟩

/-! ## Claim theorems about the channel polls -/

/-- C1: a poll of the recv computation on a channel whose send registry is in
reachable shape takes the value out when the slot is full (slot becomes none,
the send registry is drained: its wakers are all invoked and it is emptied)
and completes with the value; when the slot is empty it registers the waker in
the receive registry under the channel uid and reports pending without waking
anyone. -/
theorem C1_recv_poll {T W : Type} (c : Channel T W) (waker : W)
    (hwf : c.locked.send.WF) :
    (∀ v, c.locked.data = some v →
        c.pollInternal waker =
          (Poll.ready v,
           ⟨c.locked.recv, ⟨none, c.locked.send.chan, []⟩, none⟩,
           c.locked.send.entries.map Prod.snd))
    ∧ (c.locked.data = none →
        c.pollInternal waker =
          (Poll.pending,
           ⟨c.locked.recv.register c.uid waker, c.locked.send, none⟩,
           [])
        ∧ (c.uid, waker) ∈ (c.locked.recv.register c.uid waker).entries) := by
  constructor
  · intro v hv
    simp [Channel.pollInternal, hv, Wake.wakeAll_spec _ hwf]
  · intro hn
    refine ⟨?_, Wake.register_mem _ _ _⟩
    simp [Channel.pollInternal, hn]

/-- Witness for C1 on a concrete full channel and a concrete empty channel
(the full case via the slot value 42, the empty case vacuously true there,
plus a second application on an empty channel would be symmetric). -/
theorem C1_recv_poll_witness :
    (⟨5, ⟨⟨some 7, 5, []⟩, ⟨some 9, 3, []⟩, some 42⟩⟩ :
        Channel Nat Nat).locked.send.WF
    ∧ ((∀ v, (⟨5, ⟨⟨some 7, 5, []⟩, ⟨some 9, 3, []⟩, some 42⟩⟩ :
          Channel Nat Nat).locked.data = some v →
          (⟨5, ⟨⟨some 7, 5, []⟩, ⟨some 9, 3, []⟩, some 42⟩⟩ :
              Channel Nat Nat).pollInternal 1 =
            (Poll.ready v,
             ⟨(⟨5, ⟨⟨some 7, 5, []⟩, ⟨some 9, 3, []⟩, some 42⟩⟩ :
                 Channel Nat Nat).locked.recv,
              ⟨none, (⟨5, ⟨⟨some 7, 5, []⟩, ⟨some 9, 3, []⟩, some 42⟩⟩ :
                 Channel Nat Nat).locked.send.chan, []⟩, none⟩,
             (⟨5, ⟨⟨some 7, 5, []⟩, ⟨some 9, 3, []⟩, some 42⟩⟩ :
                 Channel Nat Nat).locked.send.entries.map Prod.snd))
       ∧ ((⟨5, ⟨⟨some 7, 5, []⟩, ⟨some 9, 3, []⟩, some 42⟩⟩ :
             Channel Nat Nat).locked.data = none →
          (⟨5, ⟨⟨some 7, 5, []⟩, ⟨some 9, 3, []⟩, some 42⟩⟩ :
              Channel Nat Nat).pollInternal 1 =
            (Poll.pending,
             ⟨(⟨5, ⟨⟨some 7, 5, []⟩, ⟨some 9, 3, []⟩, some 42⟩⟩ :
                 Channel Nat Nat).locked.recv.register 5 1,
              (⟨5, ⟨⟨some 7, 5, []⟩, ⟨some 9, 3, []⟩, some 42⟩⟩ :
                 Channel Nat Nat).locked.send, none⟩,
             [])
          ∧ (5, 1) ∈ ((⟨5, ⟨⟨some 7, 5, []⟩, ⟨some 9, 3, []⟩, some 42⟩⟩ :
              Channel Nat Nat).locked.recv.register 5 1).entries)) :=
  ⟨by decide, C1_recv_poll _ 1 (by decide)⟩

/-- C2: a poll of a send computation on a channel whose receive registry is in
reachable shape moves the held value into the empty slot (the holder becomes
none, the receive registry is drained: its wakers are all invoked and it is
emptied) and completes; when the slot is full it registers the waker in the
send registry under the channel uid and reports pending, leaving the value in
the holder and waking no one. -/
theorem C2_send_poll {T W : Type} (c : Channel T W) (v : T) (waker : W)
    (hwf : c.locked.recv.WF) :
    (c.locked.data = none →
        (c.send v).poll waker c.locked =
          (Poll.ready (), ⟨c.uid, none⟩,
           ⟨⟨none, c.locked.recv.chan, []⟩, c.locked.send, some v⟩,
           c.locked.recv.entries.map Prod.snd))
    ∧ (∀ w, c.locked.data = some w →
        (c.send v).poll waker c.locked =
          (Poll.pending, ⟨c.uid, some v⟩,
           ⟨c.locked.recv, c.locked.send.register c.uid waker, some w⟩,
           [])
        ∧ (c.uid, waker) ∈ (c.locked.send.register c.uid waker).entries) := by
  constructor
  · intro hn
    simp [Channel.send, Message.poll, hn, Wake.wakeAll_spec _ hwf]
  · intro w hw
    refine ⟨?_, Wake.register_mem _ _ _⟩
    simp [Channel.send, Message.poll, hw]

/-- Witness for C2 on a concrete empty channel with one registered
receiver. -/
theorem C2_send_poll_witness :
    (⟨6, ⟨⟨some 7, 6, []⟩, Wake.empty, none⟩⟩ :
        Channel Nat Nat).locked.recv.WF
    ∧ (((⟨6, ⟨⟨some 7, 6, []⟩, Wake.empty, none⟩⟩ :
          Channel Nat Nat).locked.data = none →
        ((⟨6, ⟨⟨some 7, 6, []⟩, Wake.empty, none⟩⟩ :
            Channel Nat Nat).send 42).poll 1
            (⟨6, ⟨⟨some 7, 6, []⟩, Wake.empty, none⟩⟩ :
            Channel Nat Nat).locked =
          (Poll.ready (), ⟨6, none⟩,
           ⟨⟨none, (⟨6, ⟨⟨some 7, 6, []⟩, Wake.empty, none⟩⟩ :
               Channel Nat Nat).locked.recv.chan, []⟩,
            (⟨6, ⟨⟨some 7, 6, []⟩, Wake.empty, none⟩⟩ :
               Channel Nat Nat).locked.send, some 42⟩,
           (⟨6, ⟨⟨some 7, 6, []⟩, Wake.empty, none⟩⟩ :
               Channel Nat Nat).locked.recv.entries.map Prod.snd))
       ∧ (∀ w, (⟨6, ⟨⟨some 7, 6, []⟩, Wake.empty, none⟩⟩ :
            Channel Nat Nat).locked.data = some w →
          ((⟨6, ⟨⟨some 7, 6, []⟩, Wake.empty, none⟩⟩ :
              Channel Nat Nat).send 42).poll 1
              (⟨6, ⟨⟨some 7, 6, []⟩, Wake.empty, none⟩⟩ :
              Channel Nat Nat).locked =
            (Poll.pending, ⟨6, some 42⟩,
             ⟨(⟨6, ⟨⟨some 7, 6, []⟩, Wake.empty, none⟩⟩ :
                 Channel Nat Nat).locked.recv,
              (⟨6, ⟨⟨some 7, 6, []⟩, Wake.empty, none⟩⟩ :
                 Channel Nat Nat).locked.send.register 6 1, some w⟩,
             [])
          ∧ (6, 1) ∈ ((⟨6, ⟨⟨some 7, 6, []⟩, Wake.empty, none⟩⟩ :
              Channel Nat Nat).locked.send.register 6 1).entries)) :=
  ⟨by decide, C2_send_poll _ 42 1 (by decide)⟩

/-- C10: polling the notifier adapter is identical to polling recv: both
delegate to the same internal poll, so for every channel state and waker the
result, the new locked state, and the invoked wakers coincide. -/
theorem C10_notifier_eq_recv {T W : Type} (c : Channel T W) (waker : W) :
    c.pollNext waker = c.recvPoll waker := rfl

/-- C4 counterexample: two distinct recv computations pending on the same
channel (uid 7) register under the SAME waiter identifier 7 — the first park
leaves the single entry (7, waker 1) and the second park replaces it with
(7, waker 2), so the identifiers are not distinct and waker 1 is lost. -/
theorem C4_counterexample :
    ((⟨7, Locked.empty⟩ : Channel Nat Nat).pollInternal 1).2.1.recv.entries
        = [(7, 1)]
    ∧ ((⟨7, ((⟨7, Locked.empty⟩ : Channel Nat Nat).pollInternal 1).2.1⟩ :
          Channel Nat Nat).pollInternal 2).2.1.recv.entries = [(7, 2)] := by
  refine ⟨by decide, by decide⟩

/-- C4 (amended): the waiter identifier registered by any poll is the uid of
the channel the computation targets — for a recv park and for a send park
alike — so all computations pending on the same channel in the same direction
share one identifier (and a later registration replaces the earlier waker);
identifiers distinguish channels, not polling call sites. -/
theorem C4_uid_is_channel {T W : Type} (c d : Channel T W) (v w : T)
    (waker waker2 : W) (hc : c.locked.data = none)
    (hd : d.locked.data = some w) :
    (c.pollInternal waker).2.1.recv = c.locked.recv.register c.uid waker
    ∧ ((d.send v).poll waker2 d.locked).2.2.1.send
        = d.locked.send.register d.uid waker2
    ∧ (d.send v).chan = d.uid := by
  refine ⟨?_, ?_, rfl⟩
  · simp [Channel.pollInternal, hc]
  · simp [Channel.send, Message.poll, hd]

/-- Witness for the amended C4 on concrete channels with uids 7 and 8. -/
theorem C4_uid_is_channel_witness :
    (⟨7, Locked.empty⟩ : Channel Nat Nat).locked.data = none
    ∧ (⟨8, ⟨Wake.empty, Wake.empty, some 5⟩⟩ :
        Channel Nat Nat).locked.data = some 5
    ∧ (((⟨7, Locked.empty⟩ : Channel Nat Nat).pollInternal 1).2.1.recv
          = (⟨7, Locked.empty⟩ :
              Channel Nat Nat).locked.recv.register 7 1
       ∧ (((⟨8, ⟨Wake.empty, Wake.empty, some 5⟩⟩ :
              Channel Nat Nat).send 9).poll 2
              (⟨8, ⟨Wake.empty, Wake.empty, some 5⟩⟩ :
              Channel Nat Nat).locked).2.2.1.send
          = (⟨8, ⟨Wake.empty, Wake.empty, some 5⟩⟩ :
              Channel Nat Nat).locked.send.register 8 2
       ∧ ((⟨8, ⟨Wake.empty, Wake.empty, some 5⟩⟩ :
              Channel Nat Nat).send 9).chan = 8) :=
  ⟨by decide, by decide, C4_uid_is_channel _ _ 9 5 1 2 (by decide) (by decide)⟩

/-- Alternating matched send/recv admissions starting from an empty slot all
complete, return exactly the sent values in order, and leave the slot
empty. -/
theorem sendRecvSeq_fidelity {T W : Type} (waker : W) (vs : List T) :
    ∀ c : Channel T W, c.locked.data = none →
      ∃ cf : Channel T W, sendRecvSeq waker c vs = some (vs, cf)
        ∧ cf.locked.data = none := by
  induction vs with
  | nil => exact fun c h => ⟨c, rfl, h⟩
  | cons v rest ih =>
      intro c h
      have h1 : (c.send v).poll waker c.locked
          = (Poll.ready (), ⟨c.uid, none⟩,
             ⟨c.locked.recv.wakeAll.2, c.locked.send, some v⟩,
             c.locked.recv.wakeAll.1) := by
        simp [Channel.send, Message.poll, h]
      have h2 : Channel.pollInternal
          (⟨c.uid, ⟨c.locked.recv.wakeAll.2, c.locked.send, some v⟩⟩ :
            Channel T W) waker
          = (Poll.ready v,
             ⟨c.locked.recv.wakeAll.2, c.locked.send.wakeAll.2, none⟩,
             c.locked.send.wakeAll.1) := by
        simp [Channel.pollInternal]
      obtain ⟨cf, hcf, hf⟩ := ih
        ⟨c.uid, ⟨c.locked.recv.wakeAll.2, c.locked.send.wakeAll.2, none⟩⟩ rfl
      refine ⟨cf, ?_, hf⟩
      simp only [sendRecvSeq, h1, h2, hcf]

/-- C6: from any channel state with an empty slot, a send poll of v admits,
the following recv poll completes returning exactly v and leaves the slot
empty again; consequently any sequence of matched alternating send/recv
admissions receives exactly the sent values in order. -/
theorem C6_round_trip {T W : Type} (c : Channel T W) (v : T) (vs : List T)
    (waker : W) (h : c.locked.data = none) :
    (((c.send v).poll waker c.locked).1 = Poll.ready ()
     ∧ ((c.send v).poll waker c.locked).2.2.1.data = some v
     ∧ (Channel.pollInternal
          (⟨c.uid, ((c.send v).poll waker c.locked).2.2.1⟩ : Channel T W)
          waker).1 = Poll.ready v
     ∧ (Channel.pollInternal
          (⟨c.uid, ((c.send v).poll waker c.locked).2.2.1⟩ : Channel T W)
          waker).2.1.data = none)
    ∧ ∃ cf : Channel T W, sendRecvSeq waker c vs = some (vs, cf)
        ∧ cf.locked.data = none := by
  refine ⟨?_, sendRecvSeq_fidelity waker vs c h⟩
  simp [Channel.send, Message.poll, h, Channel.pollInternal]

/-- A concrete empty channel used by the round-trip witness. -/
def chanA : Channel Nat Nat := ⟨7, Locked.empty⟩

/-- Witness for C6: round trip of value 11 and of the sequence [1, 2, 3] on a
concrete empty channel. -/
theorem C6_round_trip_witness :
    chanA.locked.data = none
    ∧ ((((chanA.send 11).poll 0 chanA.locked).1 = Poll.ready ()
        ∧ ((chanA.send 11).poll 0 chanA.locked).2.2.1.data = some 11
        ∧ (Channel.pollInternal
             (⟨chanA.uid, ((chanA.send 11).poll 0 chanA.locked).2.2.1⟩ :
               Channel Nat Nat) 0).1 = Poll.ready 11
        ∧ (Channel.pollInternal
             (⟨chanA.uid, ((chanA.send 11).poll 0 chanA.locked).2.2.1⟩ :
               Channel Nat Nat) 0).2.1.data = none)
       ∧ ∃ cf : Channel Nat Nat,
           sendRecvSeq 0 chanA [1, 2, 3] = some ([1, 2, 3], cf)
           ∧ cf.locked.data = none) :=
  ⟨by decide, C6_round_trip chanA 11 [1, 2, 3] 0 (by decide)⟩

/-- C7: a send(v) computation that only parked never mutates the slot: the
park leaves the value in the computation's holder and changes nothing but the
send registry (where its stale waker entry remains); dropping the computation
is a no-op on the shared state, so v is destroyed with the computation and is
never inserted into the slot — in particular, after the parked value is taken
by a receiver the slot is empty and stays empty across the drop. -/
theorem C7_cancel_send {T W : Type} (c : Channel T W) (v w : T)
    (waker waker2 : W) (hvw : v ≠ w) (h : c.locked.data = some w) :
    ((c.send v).poll waker c.locked).1 = Poll.pending
    ∧ ((c.send v).poll waker c.locked).2.1.holder = some v
    ∧ ((c.send v).poll waker c.locked).2.2.1
        = ⟨c.locked.recv, c.locked.send.register c.uid waker, some w⟩
    ∧ ((c.send v).poll waker c.locked).2.2.1.data ≠ some v
    ∧ (c.uid, waker) ∈ (c.locked.send.register c.uid waker).entries
    ∧ (∀ s : Locked T W,
        Message.drop ((c.send v).poll waker c.locked).2.1 s = s)
    ∧ (Channel.pollInternal
         (⟨c.uid, ⟨c.locked.recv, c.locked.send.register c.uid waker,
            some w⟩⟩ : Channel T W) waker2).1 = Poll.ready w
    ∧ (Message.drop ((c.send v).poll waker c.locked).2.1
         (Channel.pollInternal
           (⟨c.uid, ⟨c.locked.recv, c.locked.send.register c.uid waker,
              some w⟩⟩ : Channel T W) waker2).2.1).data = none := by
  have hp : (c.send v).poll waker c.locked
      = (Poll.pending, ⟨c.uid, some v⟩,
         ⟨c.locked.recv, c.locked.send.register c.uid waker, some w⟩, []) := by
    simp [Channel.send, Message.poll, h]
  refine ⟨by rw [hp], by rw [hp], by rw [hp], ?_,
    Wake.register_mem _ _ _, fun s => rfl,
    by simp [Channel.pollInternal],
    by simp [Channel.pollInternal, Message.drop]⟩
  rw [hp]
  exact fun hh => hvw (Option.some.inj hh).symm

/-- Witness for C7: value 9 parked behind in-transit value 5 on a concrete
channel, then received and dropped. -/
theorem C7_cancel_send_witness :
    (9 : Nat) ≠ 5
    ∧ (⟨6, ⟨Wake.empty, Wake.empty, some 5⟩⟩ :
        Channel Nat Nat).locked.data = some 5
    ∧ (let c : Channel Nat Nat := ⟨6, ⟨Wake.empty, Wake.empty, some 5⟩⟩
       ((c.send 9).poll 1 c.locked).1 = Poll.pending
       ∧ ((c.send 9).poll 1 c.locked).2.1.holder = some 9
       ∧ ((c.send 9).poll 1 c.locked).2.2.1
           = ⟨c.locked.recv, c.locked.send.register c.uid 1, some 5⟩
       ∧ ((c.send 9).poll 1 c.locked).2.2.1.data ≠ some 9
       ∧ (c.uid, 1) ∈ (c.locked.send.register c.uid 1).entries
       ∧ (∀ s : Locked Nat Nat,
           Message.drop ((c.send 9).poll 1 c.locked).2.1 s = s)
       ∧ (Channel.pollInternal
            (⟨c.uid, ⟨c.locked.recv, c.locked.send.register c.uid 1,
               some 5⟩⟩ : Channel Nat Nat) 2).1 = Poll.ready 5
       ∧ (Message.drop ((c.send 9).poll 1 c.locked).2.1
            (Channel.pollInternal
              (⟨c.uid, ⟨c.locked.recv, c.locked.send.register c.uid 1,
                 some 5⟩⟩ : Channel Nat Nat) 2).2.1).data = none) :=
  ⟨by decide, by decide,
   C7_cancel_send ⟨6, ⟨Wake.empty, Wake.empty, some 5⟩⟩ 9 5 1 2
     (by decide) (by decide)⟩

/-- C8: when one direction's registry holds entries for two distinct waiter
identifiers in its spill list (the fast slot being unoccupied, as the
registration rules force once two distinct waiters exist), the opposite
direction's admit transition invokes both wakers: a send admission invokes
both registered receivers, and a receive admission invokes both registered
senders. -/
theorem C8_multi_waiter {T W : Type} (c d : Channel T W) (v : T) (waker : W)
    (i j : Nat) (k1 k2 : W) (_hij : i ≠ j)
    (hcd : c.locked.data = none) (hcf : c.locked.recv.wake = none)
    (h1 : (i, k1) ∈ c.locked.recv.list) (h2 : (j, k2) ∈ c.locked.recv.list)
    (hdd : ∃ u, d.locked.data = some u) (hdf : d.locked.send.wake = none)
    (h3 : (i, k1) ∈ d.locked.send.list) (h4 : (j, k2) ∈ d.locked.send.list) :
    (((c.send v).poll waker c.locked).1 = Poll.ready ()
     ∧ k1 ∈ ((c.send v).poll waker c.locked).2.2.2
     ∧ k2 ∈ ((c.send v).poll waker c.locked).2.2.2)
    ∧ ((∃ u, (d.pollInternal waker).1 = Poll.ready u)
       ∧ k1 ∈ (d.pollInternal waker).2.2
       ∧ k2 ∈ (d.pollInternal waker).2.2) := by
  obtain ⟨u, hu⟩ := hdd
  constructor
  · have hp : ((c.send v).poll waker c.locked).2.2.2
        = c.locked.recv.list.map Prod.snd := by
      simp [Channel.send, Message.poll, hcd, Wake.wakeAll, hcf]
    refine ⟨by simp [Channel.send, Message.poll, hcd], ?_, ?_⟩
    · rw [hp]; exact List.mem_map.mpr ⟨(i, k1), h1, rfl⟩
    · rw [hp]; exact List.mem_map.mpr ⟨(j, k2), h2, rfl⟩
  · have hq : (d.pollInternal waker).2.2
        = d.locked.send.list.map Prod.snd := by
      simp [Channel.pollInternal, hu, Wake.wakeAll, hdf]
    refine ⟨⟨u, by simp [Channel.pollInternal, hu]⟩, ?_, ?_⟩
    · rw [hq]; exact List.mem_map.mpr ⟨(i, k1), h3, rfl⟩
    · rw [hq]; exact List.mem_map.mpr ⟨(j, k2), h4, rfl⟩

/-- Witness for C8: waiters 1 and 2 with wakers 10 and 20 spilled in the
receive registry of an empty channel and in the send registry of a full
channel. -/
theorem C8_multi_waiter_witness :
    (1 : Nat) ≠ 2
    ∧ (⟨3, ⟨⟨none, 0, [(1, 10), (2, 20)]⟩, Wake.empty, none⟩⟩ :
        Channel Nat Nat).locked.data = none
    ∧ (⟨3, ⟨⟨none, 0, [(1, 10), (2, 20)]⟩, Wake.empty, none⟩⟩ :
        Channel Nat Nat).locked.recv.wake = none
    ∧ ((1, 10) ∈ (⟨3, ⟨⟨none, 0, [(1, 10), (2, 20)]⟩, Wake.empty, none⟩⟩ :
        Channel Nat Nat).locked.recv.list)
    ∧ ((2, 20) ∈ (⟨3, ⟨⟨none, 0, [(1, 10), (2, 20)]⟩, Wake.empty, none⟩⟩ :
        Channel Nat Nat).locked.recv.list)
    ∧ (∃ u, (⟨4, ⟨Wake.empty, ⟨none, 0, [(1, 10), (2, 20)]⟩, some 5⟩⟩ :
        Channel Nat Nat).locked.data = some u)
    ∧ (⟨4, ⟨Wake.empty, ⟨none, 0, [(1, 10), (2, 20)]⟩, some 5⟩⟩ :
        Channel Nat Nat).locked.send.wake = none
    ∧ ((1, 10) ∈ (⟨4, ⟨Wake.empty, ⟨none, 0, [(1, 10), (2, 20)]⟩, some 5⟩⟩ :
        Channel Nat Nat).locked.send.list)
    ∧ ((2, 20) ∈ (⟨4, ⟨Wake.empty, ⟨none, 0, [(1, 10), (2, 20)]⟩, some 5⟩⟩ :
        Channel Nat Nat).locked.send.list)
    ∧ (let c : Channel Nat Nat :=
         ⟨3, ⟨⟨none, 0, [(1, 10), (2, 20)]⟩, Wake.empty, none⟩⟩
       let d : Channel Nat Nat :=
         ⟨4, ⟨Wake.empty, ⟨none, 0, [(1, 10), (2, 20)]⟩, some 5⟩⟩
       (((c.send 9).poll 0 c.locked).1 = Poll.ready ()
        ∧ 10 ∈ ((c.send 9).poll 0 c.locked).2.2.2
        ∧ 20 ∈ ((c.send 9).poll 0 c.locked).2.2.2)
       ∧ ((∃ u, (d.pollInternal 0).1 = Poll.ready u)
          ∧ 10 ∈ (d.pollInternal 0).2.2
          ∧ 20 ∈ (d.pollInternal 0).2.2)) :=
  ⟨by decide, by decide, by decide, by decide, by decide, ⟨5, by decide⟩,
   by decide, by decide, by decide,
   C8_multi_waiter ⟨3, ⟨⟨none, 0, [(1, 10), (2, 20)]⟩, Wake.empty, none⟩⟩
     ⟨4, ⟨Wake.empty, ⟨none, 0, [(1, 10), (2, 20)]⟩, some 5⟩⟩ 9 0 1 2 10 20
     (by decide) (by decide) (by decide) (by decide) (by decide)
     ⟨5, by decide⟩ (by decide) (by decide) (by decide)⟩

end Whisk
